import Mathlib

/-!
Verification of the Bertaud urban-economics audit engines.

The density engine (`src/bertaud_engine.py`) and the financial engine
(`src/financial_audit.py`) are shallowly embedded below.  Python floats are
modelled as real numbers where transcendental functions (`exp`, `log`)
appear, and as rationals where the computation is purely rational
arithmetic.  Python dictionaries iterated in insertion order are modelled
as association lists.
-/

namespace Bertaud

/-- The five audit statuses produced by the density classifier
(`calculate_optimal_density`, final "Dynamic Logic" chain). -/
inductive Status where
  | underUtilization
  | lowDensityWarning
  | optimal
  | highDensityWarning
  | overDensification
  deriving DecidableEq, Repr

/-- `starts_with_chars needle hay` : does `hay` start with `needle`?
Helper for the Python substring test `"yellow" in color`. -/
def starts_with_chars : List Char → List Char → Bool
  | [], _ => true
  | _ :: _, [] => false
  | n :: ns, h :: hs => n == h && starts_with_chars ns hs

/-- `contains_chars needle hay` : does `needle` occur as a contiguous
substring of `hay`?  Models Python's `in` operator on strings. -/
def contains_chars (needle : List Char) : List Char → Bool
  | [] => needle.isEmpty
  | c :: rest => starts_with_chars needle (c :: rest) || contains_chars needle rest

/-- Python `str.lower()`, modelled as per-character lowercasing of the
character sequence. -/
def to_lower_chars (s : String) : List Char :=
  s.data.map Char.toLower

/-- Python `"yellow" in zone_color.lower()`. -/
def contains_yellow (s : String) : Bool :=
  contains_chars "yellow".toList (to_lower_chars s)

/-- The upper-limit threshold chosen in `calculate_optimal_density`:
default `1.2`, overridden to `1.1` when a zone color is supplied and its
lowercased form contains `"yellow"`.  (An empty string is falsy in Python,
but it also cannot contain `"yellow"`, so the Option model agrees.) -/
noncomputable def upper_limit_for (zone_color : Option String) : ℝ :=
  match zone_color with
  | none => 1.2
  | some s => if contains_yellow s then 1.1 else 1.2

/-- The final "Dynamic Logic" status chain of `calculate_optimal_density`:
`optimal_low = 0.8`, `optimal_high = upper_limit - 0.1`. -/
noncomputable def classify_status (upper_limit efficiency_index : ℝ) : Status :=
  let optimal_low : ℝ := 0.8
  let optimal_high : ℝ := upper_limit - 0.1
  if efficiency_index < optimal_low - 0.1 then .underUtilization
  else if efficiency_index < optimal_low then .lowDensityWarning
  else if efficiency_index ≤ optimal_high then .optimal
  else if efficiency_index ≤ upper_limit then .highDensityWarning
  else .overDensification

/-- Efficiency index step of `calculate_optimal_density`: `0.0` when the
theoretical density is zero, else the quotient. -/
noncomputable def efficiency_index_of (proposed_density theoretical_density : ℝ) : ℝ :=
  if theoretical_density = 0 then 0 else proposed_density / theoretical_density

/-- The `gap_analysis` sub-dictionary built when a legal FAR limit is given. -/
structure GapAnalysis where
  legal_max_far : ℝ
  theoretical_demand_far : ℝ
  far_mismatch_gap : ℝ
  is_constraint_active : Bool
  policy_recommendation : String

/-- Gap-analysis step of `calculate_optimal_density`. -/
noncomputable def gap_analysis_for (theoretical_density : ℝ) :
    Option ℝ → Option GapAnalysis
  | none => none
  | some legal_far_limit =>
    let far_gap := theoretical_density - legal_far_limit
    let is_constrained : Bool := decide (far_gap > 0)
    let policy_recommendation :=
      if is_constrained && decide (far_gap > 1.0) then
        "Request Zoning Upgrade (Upsize)"
      else if !is_constrained && decide (legal_far_limit - theoretical_density > 2.0) then
        "Zone Over-supply (Focus on infrastructure)"
      else "None"
    some { legal_max_far := legal_far_limit
           theoretical_demand_far := theoretical_density
           far_mismatch_gap := far_gap
           is_constraint_active := is_constrained
           policy_recommendation := policy_recommendation }

/-- The result dictionary of `calculate_optimal_density`. -/
structure DensityAuditResult where
  distance_km : ℝ
  theoretical_density : ℝ
  proposed_density : ℝ
  efficiency_index : ℝ
  status : Status
  gap_analysis : Option GapAnalysis
  input_land_cost : ℝ
  input_capital_k : ℝ

/-- `BertaudAuditEngine.calculate_optimal_density`, with the engine state
`(d0, g)` passed explicitly.  `transport_cost` may be a float or a callable
in the source (`Union[float, Callable]`), so it is modelled with an
arbitrary type. -/
noncomputable def calculate_optimal_density {τ : Type} (d0 g : ℝ)
    (capital_k land_cost_e : ℝ) (transport_cost : τ)
    (distance_km proposed_density : ℝ)
    (legal_far_limit : Option ℝ := none) (zone_color : Option String := none) :
    DensityAuditResult :=
  let theoretical_density := d0 * Real.exp (-g * distance_km)
  let efficiency_index := efficiency_index_of proposed_density theoretical_density
  let upper_limit := upper_limit_for zone_color
  let status := classify_status upper_limit efficiency_index
  { distance_km := distance_km
    theoretical_density := theoretical_density
    proposed_density := proposed_density
    efficiency_index := efficiency_index
    status := status
    gap_analysis := gap_analysis_for theoretical_density legal_far_limit
    input_land_cost := land_cost_e
    input_capital_k := capital_k }

/-- Per-center parameter dictionary `{"d0": ..., "g": ...}`. -/
structure CenterParams where
  d0 : ℝ
  g : ℝ

/-- `BertaudAuditEngine.calculate_polycentric_density`: fold over the
distance map in iteration order, adding `d0_i * exp (-g_i * x_i)` for every
center that also appears in the centers configuration. -/
noncomputable def calculate_polycentric_density
    (distance_map : List (String × ℝ))
    (centers_config : List (String × CenterParams)) : ℝ :=
  distance_map.foldl
    (fun total_density entry =>
      match centers_config.lookup entry.1 with
      | some params => total_density + params.d0 * Real.exp (-params.g * entry.2)
      | none => total_density)
    0

/-- `BertaudAuditEngine.calibrate_parameters`: OLS regression of
`ln(density)` on `distance` after dropping samples with non-positive
density; `(0, 0)` sentinel on fewer than 2 valid samples or a zero
regression denominator. -/
noncomputable def calibrate_parameters (samples : List (ℝ × ℝ)) : ℝ × ℝ :=
  let valid_samples := (samples.filter (fun s => decide (0 < s.2))).map
    (fun s => (s.1, Real.log s.2))
  if valid_samples.length < 2 then (0, 0)
  else
    let xs := valid_samples.map Prod.fst
    let ln_ys := valid_samples.map Prod.snd
    let x_mean := xs.sum / xs.length
    let y_mean := ln_ys.sum / ln_ys.length
    let numerator := (valid_samples.map
      (fun s => (s.1 - x_mean) * (s.2 - y_mean))).sum
    let denominator := (xs.map (fun x => (x - x_mean) ^ 2)).sum
    if denominator = 0 then (0, 0)
    else
      let slope := numerator / denominator
      let intercept := y_mean - slope * x_mean
      (Real.exp intercept, -slope)

/-- The contribution of one distance-map entry to the polycentric sum:
`d0 * e^(-g * x)` when the center is configured, `0` otherwise. -/
noncomputable def center_contribution
    (centers_config : List (String × CenterParams)) (entry : String × ℝ) : ℝ :=
  match centers_config.lookup entry.1 with
  | some params => params.d0 * Real.exp (-params.g * entry.2)
  | none => 0

/-- The valid samples retained by `calibrate_parameters`: those with
positive density, log-linearised to `(x, ln y)`. -/
noncomputable def valid_log_samples (samples : List (ℝ × ℝ)) : List (ℝ × ℝ) :=
  (samples.filter (fun s => decide (0 < s.2))).map (fun s => (s.1, Real.log s.2))

/-- `x̄` of the regression inputs. -/
noncomputable def ols_x_mean (vs : List (ℝ × ℝ)) : ℝ :=
  (vs.map Prod.fst).sum / (vs.map Prod.fst).length

/-- `ȳ` of the regression inputs. -/
noncomputable def ols_y_mean (vs : List (ℝ × ℝ)) : ℝ :=
  (vs.map Prod.snd).sum / (vs.map Prod.snd).length

/-- OLS numerator `Σ (x - x̄)(y - ȳ)`. -/
noncomputable def ols_numerator (vs : List (ℝ × ℝ)) : ℝ :=
  (vs.map (fun s => (s.1 - ols_x_mean vs) * (s.2 - ols_y_mean vs))).sum

/-- OLS denominator `Σ (x - x̄)²`. -/
noncomputable def ols_denominator (vs : List (ℝ × ℝ)) : ℝ :=
  ((vs.map Prod.fst).map (fun x => (x - ols_x_mean vs) ^ 2)).sum

/-- OLS slope `Σ (x - x̄)(y - ȳ) / Σ (x - x̄)²`. -/
noncomputable def ols_slope (vs : List (ℝ × ℝ)) : ℝ :=
  ols_numerator vs / ols_denominator vs

/-- OLS intercept `ȳ - slope · x̄`. -/
noncomputable def ols_intercept (vs : List (ℝ × ℝ)) : ℝ :=
  ols_y_mean vs - ols_slope vs * ols_x_mean vs

/-- The calibration round-trip samples of §8: densities generated exactly
from `D0 = 10`, `g = 0.1` at distances `0`, `5`, `10`. -/
noncomputable def c5_samples : List (ℝ × ℝ) :=
  [(0, 10 * Real.exp (-(0.1) * 0)),
   (5, 10 * Real.exp (-(0.1) * 5)),
   (10, 10 * Real.exp (-(0.1) * 10))]

end Bertaud

namespace Financial

/-- The validated `FinancialParams` pydantic model.  Monetary amounts and
rates are rationals; year counts are naturals. -/
structure FinancialParams where
  upfront_fee : ℚ
  initial_annual_rent : ℚ
  lease_term_years : ℕ
  discount_rate : ℚ
  investment_cost : ℚ
  asset_useful_life_years : ℕ
  rent_escalation_rate : ℚ := 0.15
  escalation_interval_years : ℕ := 3
  deriving DecidableEq

/-- The pydantic field bounds: construction succeeds exactly when these
hold. -/
def FinancialParams.Valid (p : FinancialParams) : Prop :=
  0 ≤ p.upfront_fee ∧ 0 ≤ p.initial_annual_rent ∧
  0 < p.lease_term_years ∧ p.lease_term_years ≤ 100 ∧
  0 ≤ p.discount_rate ∧ p.discount_rate ≤ 1 ∧
  0 ≤ p.investment_cost ∧ 0 < p.asset_useful_life_years ∧
  0 ≤ p.rent_escalation_rate ∧ 0 < p.escalation_interval_years

/-- One iteration of the rent loop in `calculate_state_npv`: escalate the
carried rent when `year > 1` and `(year - 1) % escalation_interval == 0`,
then add the discounted rent for that year.  State is
`(current_rent, npv)`. -/
def npv_rent_step (p : FinancialParams) (st : ℚ × ℚ) (year : ℕ) : ℚ × ℚ :=
  let current_rent :=
    if 1 < year ∧ (year - 1) % p.escalation_interval_years = 0 then
      st.1 * (1 + p.rent_escalation_rate)
    else st.1
  let discount_factor := (1 + p.discount_rate) ^ year
  (current_rent, st.2 + current_rent / discount_factor)

/-- `FinancialAudit.calculate_state_npv`: upfront fee, the rent loop over
years `1 .. lease_term`, then the discounted terminal value. -/
def calculate_state_npv (p : FinancialParams) : ℚ :=
  let npv₀ := p.upfront_fee
  let st := (List.range' 1 p.lease_term_years).foldl
    (npv_rent_step p) (p.initial_annual_rent, npv₀)
  let residual_value : ℚ :=
    if p.lease_term_years < p.asset_useful_life_years then
      p.investment_cost *
        (((p.asset_useful_life_years - p.lease_term_years : ℕ) : ℚ) /
          (p.asset_useful_life_years : ℚ))
    else 0
  let discounted_terminal_value :=
    residual_value / (1 + p.discount_rate) ^ p.lease_term_years
  st.2 + discounted_terminal_value

/-- The rent in force during year `y` (for `y ≥ 1`), following the spec's
description: the rent starts at `initial_annual_rent` and is multiplied by
`(1 + rent_escalation_rate)` at the start of every year `y > 1` with
`(y - 1) % escalation_interval_years == 0`.  `spec_rent p 0` is the rent
carried into year 1. -/
def spec_rent (p : FinancialParams) : ℕ → ℚ
  | 0 => p.initial_annual_rent
  | y + 1 =>
    if 1 < y + 1 ∧ y % p.escalation_interval_years = 0 then
      spec_rent p y * (1 + p.rent_escalation_rate)
    else spec_rent p y

/-- The terminal value as described by the spec: straight-line residual,
discounted once by `(1 + discount_rate) ^ lease_term`. -/
def spec_terminal_value (p : FinancialParams) : ℚ :=
  (if p.lease_term_years < p.asset_useful_life_years then
    p.investment_cost *
      (((p.asset_useful_life_years : ℚ) - (p.lease_term_years : ℚ)) /
        (p.asset_useful_life_years : ℚ))
  else 0) / (1 + p.discount_rate) ^ p.lease_term_years

/-- Base construction-cost benchmarks, keyed by lowercased building type
(`base_benchmarks.get(building_type.lower())`). -/
def base_benchmarks (key : List Char) : Option ℚ :=
  if key = "low-rise".toList then some 15000
  else if key = "high-rise".toList then some 30000
  else none

/-- Regional location factors, keyed by lowercased province; `1.0` when the
province is unknown (`location_factors.get(normalized_province, 1.0)`). -/
def location_factor_of (normalized_province : List Char) : ℚ :=
  if normalized_province = "bangkok".toList then 1.0
  else if normalized_province = "phuket".toList then 1.15
  else if normalized_province = "chiang mai".toList then 1.05
  else if normalized_province = "chonburi".toList then 1.02
  else if normalized_province = "udon thani".toList then 0.95
  else 1.0

/-- The detail fields of a recognised cost-validation result (absent from
the "Unknown Type" dictionary). -/
structure CostDetail where
  base_standard_cost : ℚ
  location_factor : ℚ
  adjusted_standard_cost : ℚ
  province_context : String
  deriving DecidableEq

/-- Result of `validate_construction_cost`.  The "Unknown Type" dictionary
carries `status` and a zero `deviation_percent` but none of the detail
fields (its human-readable message is not modelled). -/
structure CostValidationResult where
  status : String
  deviation_percent : ℚ
  detail : Option CostDetail
  deriving DecidableEq

/-- `FinancialAudit.validate_construction_cost`. -/
def validate_construction_cost (proposed_cost_per_sqm : ℚ)
    (building_type : String) (province : String := "Bangkok") :
    CostValidationResult :=
  let normalized_province := Bertaud.to_lower_chars province
  let location_factor := location_factor_of normalized_province
  match base_benchmarks (Bertaud.to_lower_chars building_type) with
  | none => { status := "Unknown Type", deviation_percent := 0, detail := none }
  | some base_standard =>
    let adjusted_standard_cost := base_standard * location_factor
    let deviation := (proposed_cost_per_sqm - adjusted_standard_cost) / adjusted_standard_cost
    let deviation_percent := deviation * 100
    let status := if 0.20 < |deviation| then "Cost Anomaly Detected" else "Pass"
    { status := status
      deviation_percent := deviation_percent
      detail := some { base_standard_cost := base_standard
                       location_factor := location_factor
                       adjusted_standard_cost := adjusted_standard_cost
                       province_context := province } }

/-- One iteration of the nominal-rent loop in `calculate_return_on_asset`:
same escalation rule as the NPV loop, no discounting.  State is
`(current_rent, total_nominal_rent)`. -/
def roa_rent_step (p : FinancialParams) (st : ℚ × ℚ) (year : ℕ) : ℚ × ℚ :=
  let current_rent :=
    if 1 < year ∧ (year - 1) % p.escalation_interval_years = 0 then
      st.1 * (1 + p.rent_escalation_rate)
    else st.1
  (current_rent, st.2 + current_rent)

/-- Result dictionary of `calculate_return_on_asset`. -/
structure RoaResult where
  roa_percent : ℚ
  average_annual_benefit : ℚ
  status : String
  deriving DecidableEq

/-- `FinancialAudit.calculate_return_on_asset`. -/
def calculate_return_on_asset (p : FinancialParams) : RoaResult :=
  let st := (List.range' 1 p.lease_term_years).foldl
    (roa_rent_step p) (p.initial_annual_rent, 0)
  let terminal_value : ℚ :=
    if p.lease_term_years < p.asset_useful_life_years then
      p.investment_cost *
        (((p.asset_useful_life_years - p.lease_term_years : ℕ) : ℚ) /
          (p.asset_useful_life_years : ℚ))
    else 0
  let total_benefit := p.upfront_fee + st.2 + terminal_value
  let average_annual_benefit := total_benefit / (p.lease_term_years : ℚ)
  let roa := if 0 < p.investment_cost then average_annual_benefit / p.investment_cost else 0
  let roa_percent := roa * 100
  { roa_percent := roa_percent
    average_annual_benefit := average_annual_benefit
    status := if roa_percent < 3 then "Below Target" else "On Target" }

/-- Outcome of `calculate_breakeven_lease_term`: the `float('inf')`
sentinel returned by the two guard branches, an ordinary finite return, or
a raised exception (`math.log` raises `ValueError` on a non-positive
argument and `x / 0.0` raises `ZeroDivisionError`). -/
inductive BreakevenResult where
  | infinite
  | years (n : ℝ)
  | error

/-- `FinancialAudit.calculate_breakeven_lease_term`.  Past the two
sentinel guards the source computes
`-math.log(1 - ratio) / math.log(1 + discount_rate)`; that expression
raises unless `1 - ratio > 0`, `1 + discount_rate > 0` and
`log(1 + discount_rate) ≠ 0`, so the fallible computation is embedded with
an explicit `.error` outcome for those inputs (notably
`discount_rate = 0`, where `-0.0 / 0.0` raises `ZeroDivisionError`). -/
noncomputable def calculate_breakeven_lease_term
    (investment_cost annual_net_cashflow discount_rate : ℝ) : BreakevenResult :=
  if annual_net_cashflow ≤ 0 then .infinite
  else
    let ratio := investment_cost * discount_rate / annual_net_cashflow
    if 1 ≤ ratio then .infinite
    else if 0 < 1 - ratio ∧ 0 < 1 + discount_rate ∧
        Real.log (1 + discount_rate) ≠ 0 then
      .years (-Real.log (1 - ratio) / Real.log (1 + discount_rate))
    else .error

/-- The fields read out of the `base_params` dictionary by
`perform_sensitivity_analysis` (with the dictionary's `.get` defaults). -/
structure SensitivityInput where
  upfront_fee : ℚ := 0
  initial_annual_rent : ℚ := 0
  lease_years : ℕ := 30
  investment_cost : ℚ := 0
  deriving DecidableEq

/-- The `FinancialParams` record built by `run_scenario` inside
`perform_sensitivity_analysis`: useful life hard-coded to 50, escalation
fields left at their defaults, only the discount rate varies. -/
def sensitivity_scenario_params (b : SensitivityInput) (rate : ℚ) :
    FinancialParams :=
  { upfront_fee := b.upfront_fee
    initial_annual_rent := b.initial_annual_rent
    lease_term_years := b.lease_years
    discount_rate := rate
    investment_cost := b.investment_cost
    asset_useful_life_years := 50 }

/-- Result dictionary of `perform_sensitivity_analysis`. -/
structure SensitivityResult where
  base_case : ℚ
  plus_two_percent : ℚ
  minus_two_percent : ℚ
  deriving DecidableEq

/-- `FinancialAudit.perform_sensitivity_analysis`: NPV at the hard-coded
base discount rate `0.05` and at `±0.02` around it. -/
def perform_sensitivity_analysis (b : SensitivityInput) : SensitivityResult :=
  let base_discount : ℚ := 0.05
  { base_case := calculate_state_npv (sensitivity_scenario_params b base_discount)
    plus_two_percent :=
      calculate_state_npv (sensitivity_scenario_params b (base_discount + 0.02))
    minus_two_percent :=
      calculate_state_npv (sensitivity_scenario_params b (base_discount - 0.02)) }

/-- The NPV scenario parameters of §8 of the spec (escalation fields at
their pydantic defaults). -/
def c9_base_params : FinancialParams :=
  { upfront_fee := 50000000
    initial_annual_rent := 10000000
    lease_term_years := 30
    discount_rate := 0.035
    investment_cost := 1000000000
    asset_useful_life_years := 50 }

/-- The division-by-zero / log-domain conditions met along the executed
path of `calculate_breakeven_lease_term` once its two sentinel guards have
passed: the ratio's divisor is nonzero, the argument of
`math.log(1 - ratio)` is positive, the argument of `math.log(1 + r)` is
positive, and the final division's divisor `log(1 + r)` is nonzero
(`math.log` raises on a non-positive argument and `x / 0.0` raises
`ZeroDivisionError` in Python). -/
def breakeven_division_guarded
    (investment_cost annual_net_cashflow discount_rate : ℝ) : Prop :=
  0 < annual_net_cashflow →
    annual_net_cashflow ≠ 0 ∧
    (investment_cost * discount_rate / annual_net_cashflow < 1 →
      0 < 1 - investment_cost * discount_rate / annual_net_cashflow ∧
      0 < 1 + discount_rate ∧
      Real.log (1 + discount_rate) ≠ 0)

/-- Divisors of the executed divisions in `calculate_state_npv`: the
yearly discount factors, the depreciation basis, the terminal discount
factor; plus the escalation modulus used by the Python `%`. -/
def npv_division_guarded (p : FinancialParams) : Prop :=
  p.escalation_interval_years ≠ 0 ∧
  (∀ y ∈ Finset.Icc 1 p.lease_term_years, (1 + p.discount_rate) ^ y ≠ 0) ∧
  (p.lease_term_years < p.asset_useful_life_years →
    (p.asset_useful_life_years : ℚ) ≠ 0) ∧
  (1 + p.discount_rate) ^ p.lease_term_years ≠ 0

/-- Divisors of the executed divisions in `calculate_return_on_asset`
(the division by `investment_cost` runs only under its `> 0` guard). -/
def roa_division_guarded (p : FinancialParams) : Prop :=
  p.escalation_interval_years ≠ 0 ∧
  (p.lease_term_years : ℚ) ≠ 0 ∧
  (p.lease_term_years < p.asset_useful_life_years →
    (p.asset_useful_life_years : ℚ) ≠ 0) ∧
  (0 < p.investment_cost → p.investment_cost ≠ 0)

/-- The divisor of the deviation computation in
`validate_construction_cost` is nonzero whenever the building type is
recognised. -/
def cost_division_guarded (building_type province : String) : Prop :=
  ∀ base, base_benchmarks (Bertaud.to_lower_chars building_type) = some base →
    base * location_factor_of (Bertaud.to_lower_chars province) ≠ 0

/-- The rent loop of `calculate_state_npv` computes the carried rent
`spec_rent p n` and accumulates the discounted rents of years `1 .. n`. -/
theorem npv_loop_eq (p : FinancialParams) (n : ℕ) (acc : ℚ) :
    (List.range' 1 n).foldl (npv_rent_step p) (p.initial_annual_rent, acc) =
      (spec_rent p n,
        acc + ∑ y ∈ Finset.Icc 1 n, spec_rent p y / (1 + p.discount_rate) ^ y) := by
  induction n generalizing acc with
  | zero => simp [spec_rent]
  | succ m ih =>
    rw [List.range'_concat, List.foldl_append, ih]
    simp only [List.foldl_cons, List.foldl_nil, npv_rent_step, Nat.one_mul]
    rw [Finset.sum_Icc_succ_top (by omega : 1 ≤ m + 1)]
    have hm : 1 + m - 1 = m := by omega
    have hm2 : (1 + m) = m + 1 := by omega
    rw [hm, hm2]
    have hs : (if 1 < m + 1 ∧ m % p.escalation_interval_years = 0 then
        spec_rent p m * (1 + p.rent_escalation_rate) else spec_rent p m) =
        spec_rent p (m + 1) := rfl
    rw [hs, Prod.mk.injEq]
    exact ⟨rfl, by ring⟩

/-- Closed form of `calculate_state_npv`: upfront fee plus discounted
escalating rents plus the discounted straight-line residual. -/
theorem calculate_state_npv_eq (p : FinancialParams) :
    calculate_state_npv p =
      p.upfront_fee +
        (∑ y ∈ Finset.Icc 1 p.lease_term_years,
          spec_rent p y / (1 + p.discount_rate) ^ y) +
        spec_terminal_value p := by
  show (List.foldl (npv_rent_step p) (p.initial_annual_rent, p.upfront_fee)
      (List.range' 1 p.lease_term_years)).2 + _ = _
  rw [npv_loop_eq]
  unfold spec_terminal_value
  by_cases h : p.lease_term_years < p.asset_useful_life_years
  · rw [if_pos h, if_pos h, Nat.cast_sub (le_of_lt h)]
  · rw [if_neg h, if_neg h]

/-- The rent schedule reads only the escalation fields, not the discount
rate. -/
theorem spec_rent_rate_invariant (p : FinancialParams) (r : ℚ) (y : ℕ) :
    spec_rent { p with discount_rate := r } y = spec_rent p y := by
  induction y with
  | zero => rfl
  | succ m ih => simp only [spec_rent, ih]

/-- The escalating rent stays nonnegative. -/
theorem spec_rent_nonneg (p : FinancialParams)
    (h0 : 0 ≤ p.initial_annual_rent) (hesc : 0 ≤ p.rent_escalation_rate)
    (y : ℕ) : 0 ≤ spec_rent p y := by
  induction y with
  | zero => exact h0
  | succ m ih =>
    unfold spec_rent
    split
    · exact mul_nonneg ih (by linarith)
    · exact ih

/-- The escalating rent stays positive when the initial rent is. -/
theorem spec_rent_pos (p : FinancialParams)
    (h0 : 0 < p.initial_annual_rent) (hesc : 0 ≤ p.rent_escalation_rate)
    (y : ℕ) : 0 < spec_rent p y := by
  induction y with
  | zero => exact h0
  | succ m ih =>
    unfold spec_rent
    split
    · exact mul_pos ih (by linarith)
    · exact ih

/-- Raising the discount rate strictly lowers the NPV as long as the
initial rent is positive, the lease has at least one year and the
investment cost is nonnegative. -/
theorem npv_strict_anti (p : FinancialParams) (r₁ r₂ : ℚ)
    (h0 : 0 ≤ r₁) (h12 : r₁ < r₂) (hrent : 0 < p.initial_annual_rent)
    (hesc : 0 ≤ p.rent_escalation_rate) (hterm : 1 ≤ p.lease_term_years)
    (hinv : 0 ≤ p.investment_cost) :
    calculate_state_npv { p with discount_rate := r₂ } <
      calculate_state_npv { p with discount_rate := r₁ } := by
  rw [calculate_state_npv_eq, calculate_state_npv_eq]
  simp only [spec_rent_rate_invariant]
  have hpow : ∀ y : ℕ, 1 ≤ y → (1 + r₁) ^ y < (1 + r₂) ^ y := by
    intro y hy
    exact pow_lt_pow_left₀ (by linarith) (by linarith) (by omega)
  have hpow₁ : ∀ y : ℕ, (0:ℚ) < (1 + r₁) ^ y := fun y => pow_pos (by linarith) y
  have hsum : (∑ y ∈ Finset.Icc 1 p.lease_term_years,
      spec_rent p y / (1 + r₂) ^ y) <
      ∑ y ∈ Finset.Icc 1 p.lease_term_years,
        spec_rent p y / (1 + r₁) ^ y := by
    apply Finset.sum_lt_sum_of_nonempty
    · exact Finset.nonempty_Icc.mpr hterm
    · intro y hy
      have hy1 : 1 ≤ y := (Finset.mem_Icc.mp hy).1
      have hr : 0 < spec_rent p y := spec_rent_pos p hrent hesc y
      exact div_lt_div_of_pos_left hr (hpow₁ y) (hpow y hy1)
  have hterm' : spec_terminal_value { p with discount_rate := r₂ } ≤
      spec_terminal_value { p with discount_rate := r₁ } := by
    unfold spec_terminal_value
    dsimp only
    split_ifs with h
    · have hX : (0:ℚ) ≤ p.investment_cost *
          (((p.asset_useful_life_years : ℚ) - (p.lease_term_years : ℚ)) /
            (p.asset_useful_life_years : ℚ)) := by
        apply mul_nonneg hinv
        apply div_nonneg _ (Nat.cast_nonneg _)
        have : (p.lease_term_years : ℚ) ≤ (p.asset_useful_life_years : ℚ) :=
          Nat.cast_le.mpr (le_of_lt h)
        linarith
      exact div_le_div_of_nonneg_left hX (hpow₁ _) (le_of_lt (hpow _ hterm))
    · simp
  simp only at hsum hterm' ⊢
  linarith

/-- With nonnegative cash-flow parameters the NPV is at least the upfront
fee. -/
theorem npv_ge_upfront (p : FinancialParams)
    (hrent : 0 ≤ p.initial_annual_rent) (hesc : 0 ≤ p.rent_escalation_rate)
    (hr : 0 ≤ p.discount_rate) (hinv : 0 ≤ p.investment_cost) :
    p.upfront_fee ≤ calculate_state_npv p := by
  rw [calculate_state_npv_eq]
  have hsum : 0 ≤ ∑ y ∈ Finset.Icc 1 p.lease_term_years,
      spec_rent p y / (1 + p.discount_rate) ^ y :=
    Finset.sum_nonneg fun y _ =>
      div_nonneg (spec_rent_nonneg p hrent hesc y) (pow_nonneg (by linarith) y)
  have hterm : 0 ≤ spec_terminal_value p := by
    unfold spec_terminal_value
    apply div_nonneg _ (pow_nonneg (by linarith) _)
    split_ifs with h
    · apply mul_nonneg hinv
      apply div_nonneg _ (Nat.cast_nonneg _)
      have : (p.lease_term_years : ℚ) ≤ (p.asset_useful_life_years : ℚ) :=
        Nat.cast_le.mpr (le_of_lt h)
      linarith
    · exact le_refl 0
  linarith

end Financial

namespace Bertaud

/-- The override logic only ever produces the two thresholds `1.2` and
`1.1`. -/
theorem upper_limit_for_cases (zc : Option String) :
    upper_limit_for zc = 1.2 ∨ upper_limit_for zc = 1.1 := by
  cases zc with
  | none => exact Or.inl rfl
  | some s =>
    simp only [upper_limit_for]
    by_cases h : contains_yellow s
    · rw [if_pos h]; exact Or.inr rfl
    · rw [if_neg h]; exact Or.inl rfl

/-- Band characterisation of the status classifier for the two threshold
contexts that occur: the five statuses correspond to five contiguous,
non-overlapping, exhaustive intervals. -/
theorem classify_status_iff (u e : ℝ) (hu : u = 1.2 ∨ u = 1.1) :
    (classify_status u e = .underUtilization ↔ e < 0.8 - 0.1) ∧
    (classify_status u e = .lowDensityWarning ↔ 0.8 - 0.1 ≤ e ∧ e < 0.8) ∧
    (classify_status u e = .optimal ↔ 0.8 ≤ e ∧ e ≤ u - 0.1) ∧
    (classify_status u e = .highDensityWarning ↔ u - 0.1 < e ∧ e ≤ u) ∧
    (classify_status u e = .overDensification ↔ u < e) := by
  have hu1 : (0.9:ℝ) ≤ u := by rcases hu with rfl | rfl <;> norm_num
  unfold classify_status
  dsimp only
  split_ifs with h1 h2 h3 h4 <;>
    refine ⟨?_, ?_, ?_, ?_, ?_⟩ <;> simp <;> first
      | (intro h; linarith)
      | linarith
      | (constructor <;> linarith)

/-- Unrolling the polycentric fold: it adds one `center_contribution` per
distance-map entry to its accumulator. -/
theorem polycentric_foldl_eq (cfg : List (String × CenterParams))
    (dm : List (String × ℝ)) (init : ℝ) :
    dm.foldl
      (fun total_density entry =>
        match cfg.lookup entry.1 with
        | some params => total_density + params.d0 * Real.exp (-params.g * entry.2)
        | none => total_density)
      init = init + (dm.map (center_contribution cfg)).sum := by
  induction dm generalizing init with
  | nil => simp
  | cons e rest ih =>
    simp only [List.foldl_cons, List.map_cons, List.sum_cons, ih]
    unfold center_contribution
    cases h : cfg.lookup e.1 with
    | none => simp [h]
    | some params => simp [h]; ring

/-- The polycentric density is the sum of the per-entry contributions. -/
theorem calculate_polycentric_density_eq (dm : List (String × ℝ))
    (cfg : List (String × CenterParams)) :
    calculate_polycentric_density dm cfg = (dm.map (center_contribution cfg)).sum := by
  unfold calculate_polycentric_density
  rw [polycentric_foldl_eq, zero_add]

/-- Association-list lookup is invariant under permutation when the keys
are distinct (Python dictionaries always have distinct keys). -/
theorem lookup_eq_of_perm {β : Type} {l₁ l₂ : List (String × β)}
    (hperm : l₁.Perm l₂) (hnd : (l₁.map Prod.fst).Nodup) (k : String) :
    l₁.lookup k = l₂.lookup k := by
  induction hperm with
  | nil => rfl
  | cons x l ih =>
    simp only [List.map_cons, List.nodup_cons] at hnd
    cases x with
    | mk a b =>
      simp only [List.lookup]
      cases k == a <;> simp [ih hnd.2]
  | swap x y l =>
    cases x with
    | mk a b =>
      cases y with
      | mk c d =>
        simp only [List.map_cons, List.nodup_cons, List.mem_cons] at hnd
        have hac : c ≠ a := fun h => hnd.1 (Or.inl h)
        simp only [List.lookup]
        cases hka : k == a <;> cases hkc : k == c <;> simp
        exact absurd ((eq_of_beq hkc).symm.trans (eq_of_beq hka)) hac
  | trans h₁ h₂ ih₁ ih₂ =>
    have hnd₂ := (h₁.map Prod.fst).nodup_iff.mp hnd
    rw [ih₁ hnd, ih₂ hnd₂]

/-- Fewer than two valid samples: `calibrate_parameters` returns the
`(0, 0)` sentinel. -/
theorem calibrate_insufficient (samples : List (ℝ × ℝ))
    (h : (valid_log_samples samples).length < 2) :
    calibrate_parameters samples = (0, 0) := by
  unfold valid_log_samples at h
  unfold calibrate_parameters
  dsimp only
  rw [if_pos h]

/-- Zero regression denominator (all valid distances identical):
`calibrate_parameters` returns the `(0, 0)` sentinel. -/
theorem calibrate_den_zero (samples : List (ℝ × ℝ))
    (h2 : ¬ (valid_log_samples samples).length < 2)
    (hden : ols_denominator (valid_log_samples samples) = 0) :
    calibrate_parameters samples = (0, 0) := by
  unfold valid_log_samples at h2 hden
  unfold ols_denominator ols_x_mean at hden
  unfold calibrate_parameters
  dsimp only
  rw [if_neg h2, if_pos hden]

/-- In the regression case `calibrate_parameters` returns
`(e^intercept, -slope)` of the ordinary least-squares fit. -/
theorem calibrate_formula (samples : List (ℝ × ℝ))
    (h2 : ¬ (valid_log_samples samples).length < 2)
    (hden : ols_denominator (valid_log_samples samples) ≠ 0) :
    calibrate_parameters samples =
      (Real.exp (ols_intercept (valid_log_samples samples)),
        -(ols_slope (valid_log_samples samples))) := by
  unfold valid_log_samples at h2 hden ⊢
  unfold ols_denominator ols_x_mean at hden
  unfold ols_intercept ols_slope ols_numerator ols_denominator ols_x_mean ols_y_mean
  unfold calibrate_parameters
  dsimp only
  rw [if_neg h2, if_neg hden]

/-- Samples with non-positive density are dropped: pre-filtering them away
changes nothing. -/
theorem calibrate_filter_invariant (samples : List (ℝ × ℝ)) :
    calibrate_parameters (samples.filter (fun s => decide (0 < s.2))) =
      calibrate_parameters samples := by
  unfold calibrate_parameters
  rw [List.filter_filter]
  simp only [Bool.and_self]

/-- The §8 round-trip samples calibrate back exactly to `(10, 1/10)`. -/
theorem c5_roundtrip : calibrate_parameters c5_samples = (10, 1/10) := by
  have hpos : ∀ x : ℝ, (0:ℝ) < 10 * Real.exp (-(0.1) * x) := fun x => by positivity
  have hfilter : c5_samples.filter (fun s => decide (0 < s.2)) = c5_samples := by
    unfold c5_samples
    rw [List.filter_cons_of_pos, List.filter_cons_of_pos, List.filter_cons_of_pos,
      List.filter_nil]
    all_goals simp only [decide_eq_true_eq]
    all_goals exact hpos _
  have e1 : Real.log (10 * Real.exp (-(0.1) * 0)) = Real.log 10 := by
    norm_num
  have e2 : Real.log (10 * Real.exp (-(0.1) * 5)) = Real.log 10 - (1/2) := by
    rw [Real.log_mul (by norm_num) (Real.exp_ne_zero _), Real.log_exp]
    ring_nf
  have e3 : Real.log (10 * Real.exp (-(0.1) * 10)) = Real.log 10 - 1 := by
    rw [Real.log_mul (by norm_num) (Real.exp_ne_zero _), Real.log_exp]
    ring_nf
  have hvs : valid_log_samples c5_samples =
      [(0, Real.log 10), (5, Real.log 10 - (1/2)), (10, Real.log 10 - 1)] := by
    unfold valid_log_samples
    rw [hfilter]
    unfold c5_samples
    simp only [List.map_cons, List.map_nil]
    rw [e1, e2, e3]
  have hx : ols_x_mean
      [(0, Real.log 10), (5, Real.log 10 - (1/2)), ((10:ℝ), Real.log 10 - 1)] = 5 := by
    unfold ols_x_mean
    simp
    norm_num
  have hy : ols_y_mean
      [(0, Real.log 10), (5, Real.log 10 - (1/2)), ((10:ℝ), Real.log 10 - 1)] =
      Real.log 10 - (1/2) := by
    unfold ols_y_mean
    simp
    ring
  have hnum : ols_numerator
      [(0, Real.log 10), (5, Real.log 10 - (1/2)), ((10:ℝ), Real.log 10 - 1)] = -5 := by
    unfold ols_numerator
    rw [hx, hy]
    simp
    ring
  have hden : ols_denominator
      [(0, Real.log 10), (5, Real.log 10 - (1/2)), ((10:ℝ), Real.log 10 - 1)] = 50 := by
    unfold ols_denominator
    rw [hx]
    simp
    norm_num
  have h2 : ¬ (valid_log_samples c5_samples).length < 2 := by
    rw [hvs]
    simp
  have hdenne : ols_denominator (valid_log_samples c5_samples) ≠ 0 := by
    rw [hvs, hden]
    norm_num
  have hcal := calibrate_formula c5_samples h2 hdenne
  rw [hvs] at hcal
  have hslope : ols_slope
      [(0, Real.log 10), (5, Real.log 10 - (1/2)), ((10:ℝ), Real.log 10 - 1)] =
      -(1/10) := by
    unfold ols_slope
    rw [hnum, hden]
    norm_num
  have hint : ols_intercept
      [(0, Real.log 10), (5, Real.log 10 - (1/2)), ((10:ℝ), Real.log 10 - 1)] =
      Real.log 10 := by
    unfold ols_intercept
    rw [hy, hslope, hx]
    ring
  rw [hint, hslope] at hcal
  rw [hcal, Real.exp_log (by norm_num : (0:ℝ) < 10)]
  norm_num

end Bertaud

open Bertaud Financial

/-- C1: `calculate_state_npv` returns the undiscounted upfront fee, plus
for each year `1 .. leaseTerm` the current rent — starting at
`initialAnnualRent` and multiplied by `(1 + rentEscalationRate)` at the
start of every year `y > 1` with `(y - 1) % escalationIntervalYears == 0`
— discounted by `(1 + discountRate) ^ y`, plus a terminal value of
`investmentCost * (assetUsefulLife - leaseTerm) / assetUsefulLife` when
`leaseTerm < assetUsefulLife` and `0` otherwise, discounted by
`(1 + discountRate) ^ leaseTerm` and added exactly once. -/
theorem claim_C1_state_npv_closed_form (p : FinancialParams) :
    calculate_state_npv p =
      p.upfront_fee +
        (∑ y ∈ Finset.Icc 1 p.lease_term_years,
          spec_rent p y / (1 + p.discount_rate) ^ y) +
        spec_terminal_value p :=
  calculate_state_npv_eq p

/-- C9: the §8 NPV scenario is positive; raising its discount rate by
`0.02` strictly lowers the NPV; and the sensitivity sweep returns exactly
the NPVs of three parameter records that differ only in discount rate
(base `0.05`, `+0.02`, `-0.02`) and share the upfront fee, initial rent,
lease term and investment cost. -/
theorem claim_C9_npv_scenario_and_sensitivity :
    0 < calculate_state_npv c9_base_params ∧
    calculate_state_npv
        { c9_base_params with
            discount_rate := c9_base_params.discount_rate + 0.02 } <
      calculate_state_npv c9_base_params ∧
    (∀ b : SensitivityInput,
      perform_sensitivity_analysis b =
        { base_case := calculate_state_npv (sensitivity_scenario_params b 0.05)
          plus_two_percent :=
            calculate_state_npv (sensitivity_scenario_params b (0.05 + 0.02))
          minus_two_percent :=
            calculate_state_npv (sensitivity_scenario_params b (0.05 - 0.02)) }) ∧
    (∀ (b : SensitivityInput) (r r' : ℚ),
      sensitivity_scenario_params b r =
        { sensitivity_scenario_params b r' with discount_rate := r }) := by
  refine ⟨?_, ?_, fun b => rfl, fun b r r' => rfl⟩
  · have h := npv_ge_upfront c9_base_params (by norm_num [c9_base_params])
      (by norm_num [c9_base_params]) (by norm_num [c9_base_params])
      (by norm_num [c9_base_params])
    have : (0:ℚ) < c9_base_params.upfront_fee := by norm_num [c9_base_params]
    linarith
  · have h := npv_strict_anti c9_base_params 0.035 (0.035 + 0.02)
      (by norm_num) (by norm_num) (by norm_num [c9_base_params])
      (by norm_num [c9_base_params]) (by norm_num [c9_base_params])
      (by norm_num [c9_base_params])
    exact h

/-- C2: for every efficiency index in `[0, ∞)` the classifier assigns
exactly one of five statuses, with `upperLimit = 1.2` by default and `1.1`
when the zone color contains `"yellow"` case-insensitively,
`optimalLow = 0.8`, `optimalHigh = upperLimit - 0.1`, and the five bands
`(-∞, 0.7)`, `[0.7, 0.8)`, `[0.8, optimalHigh]`, `(optimalHigh,
upperLimit]`, `(upperLimit, ∞)` — contiguous, exhaustive and
non-overlapping in both threshold contexts. -/
theorem claim_C2_status_bands (zone_color : Option String) (e : ℝ) (he : 0 ≤ e) :
    (∀ s, zone_color = some s → contains_yellow s = true →
      upper_limit_for zone_color = 1.1) ∧
    (∀ s, zone_color = some s → contains_yellow s = false →
      upper_limit_for zone_color = 1.2) ∧
    (zone_color = none → upper_limit_for zone_color = 1.2) ∧
    (classify_status (upper_limit_for zone_color) e = .underUtilization ↔
      e < 0.8 - 0.1) ∧
    (classify_status (upper_limit_for zone_color) e = .lowDensityWarning ↔
      0.8 - 0.1 ≤ e ∧ e < 0.8) ∧
    (classify_status (upper_limit_for zone_color) e = .optimal ↔
      0.8 ≤ e ∧ e ≤ upper_limit_for zone_color - 0.1) ∧
    (classify_status (upper_limit_for zone_color) e = .highDensityWarning ↔
      upper_limit_for zone_color - 0.1 < e ∧ e ≤ upper_limit_for zone_color) ∧
    (classify_status (upper_limit_for zone_color) e = .overDensification ↔
      upper_limit_for zone_color < e) := by
  have hiff := classify_status_iff (upper_limit_for zone_color) e
    (upper_limit_for_cases zone_color)
  refine ⟨?_, ?_, ?_, hiff.1, hiff.2.1, hiff.2.2.1, hiff.2.2.2.1, hiff.2.2.2.2⟩
  · intro s hs hy; subst hs; simp [upper_limit_for, hy]
  · intro s hs hy; subst hs; simp [upper_limit_for, hy]
  · intro h; subst h; rfl

/-- Witness for C2 at the concrete input `zone_color = "Yellow Zone"`,
`e = 1`: the stricter threshold applies and the index is classified
Optimal. -/
theorem claim_C2_status_bands_witness :
    classify_status (upper_limit_for (some "Yellow Zone")) 1 =
      Bertaud.Status.optimal := by
  have h := claim_C2_status_bands (some "Yellow Zone") 1 (by norm_num)
  apply h.2.2.2.2.2.1.mpr
  have hu : upper_limit_for (some "Yellow Zone") = 1.1 :=
    h.1 "Yellow Zone" rfl (by decide)
  rw [hu]
  norm_num

/-- C6: the efficiency index computed by the density audit equals
`proposed / theoretical` when `theoretical ≠ 0` and exactly `0` when
`theoretical = 0`. -/
theorem claim_C6_efficiency_index (proposed theoretical : ℝ)
    (hp : 0 ≤ proposed) (ht : 0 ≤ theoretical) :
    (theoretical ≠ 0 →
      efficiency_index_of proposed theoretical = proposed / theoretical) ∧
    (theoretical = 0 → efficiency_index_of proposed theoretical = 0) ∧
    (∀ {τ : Type} (d0 g capital_k land_cost_e : ℝ) (transport_cost : τ)
        (x : ℝ) (far : Option ℝ) (zc : Option String),
      (calculate_optimal_density d0 g capital_k land_cost_e transport_cost x
          proposed far zc).efficiency_index =
        efficiency_index_of proposed (d0 * Real.exp (-g * x))) := by
  refine ⟨fun h => ?_, fun h => ?_, fun d0 g ck le tc x far zc => rfl⟩
  · unfold efficiency_index_of; rw [if_neg h]
  · unfold efficiency_index_of; rw [if_pos h]

/-- Witness for C6 at `proposed = 3`, `theoretical = 2`. -/
theorem claim_C6_efficiency_index_witness : efficiency_index_of 3 2 = 3 / 2 :=
  (claim_C6_efficiency_index 3 2 (by norm_num) (by norm_num)).1 (by norm_num)

/-- C7: `calculate_polycentric_density` sums `d0_i * e^(-g_i * x_i)` over
the keys shared by both mappings; a key present only in the distance map
contributes `0` and causes no error; and permuting the entries of either
mapping leaves the result unchanged (for the configuration, under the
dictionary invariant that its keys are distinct). -/
theorem claim_C7_polycentric (dm dm' : List (String × ℝ))
    (cfg cfg' : List (String × CenterParams)) :
    (calculate_polycentric_density dm cfg =
      (dm.map (center_contribution cfg)).sum) ∧
    (∀ (k : String) (d : ℝ), cfg.lookup k = none →
      calculate_polycentric_density ((k, d) :: dm) cfg =
        calculate_polycentric_density dm cfg) ∧
    (dm.Perm dm' →
      calculate_polycentric_density dm cfg =
        calculate_polycentric_density dm' cfg) ∧
    ((cfg.map Prod.fst).Nodup → cfg.Perm cfg' →
      calculate_polycentric_density dm cfg =
        calculate_polycentric_density dm cfg') := by
  refine ⟨calculate_polycentric_density_eq dm cfg, ?_, ?_, ?_⟩
  · intro k d hk
    rw [calculate_polycentric_density_eq, calculate_polycentric_density_eq,
      List.map_cons, List.sum_cons]
    have : center_contribution cfg (k, d) = 0 := by
      unfold center_contribution
      rw [hk]
    rw [this, zero_add]
  · intro hperm
    rw [calculate_polycentric_density_eq, calculate_polycentric_density_eq]
    exact (hperm.map (center_contribution cfg)).sum_eq
  · intro hnd hperm
    rw [calculate_polycentric_density_eq, calculate_polycentric_density_eq]
    have hfun : center_contribution cfg = center_contribution cfg' := by
      funext e
      unfold center_contribution
      rw [lookup_eq_of_perm hperm hnd]
    rw [hfun]

/-- Witness for C7 at the two-center configuration of the repository's
verification script, with its entries swapped. -/
theorem claim_C7_polycentric_witness :
    calculate_polycentric_density [("CBD_1", 5)]
        [("CBD_1", CenterParams.mk 10 0.1), ("CBD_2", CenterParams.mk 5 0.2)] =
      calculate_polycentric_density [("CBD_1", 5)]
        [("CBD_2", CenterParams.mk 5 0.2), ("CBD_1", CenterParams.mk 10 0.1)] :=
  (claim_C7_polycentric [("CBD_1", 5)] [("CBD_1", 5)]
      [("CBD_1", CenterParams.mk 10 0.1), ("CBD_2", CenterParams.mk 5 0.2)]
      [("CBD_2", CenterParams.mk 5 0.2), ("CBD_1", CenterParams.mk 10 0.1)]).2.2.2
    (by decide)
    (List.Perm.swap ("CBD_2", CenterParams.mk 5 0.2)
      ("CBD_1", CenterParams.mk 10 0.1) [])

/-- C10: two `calculate_optimal_density` calls that differ only in
`capital_k`, `land_cost_e` and `transport_cost` produce the same
theoretical density, efficiency index, status and gap analysis;
`capital_k` and `land_cost_e` are merely echoed verbatim in the result. -/
theorem claim_C10_ignored_inputs {τ₁ τ₂ : Type} (d0 g : ℝ)
    (capital_k₁ land_cost_e₁ capital_k₂ land_cost_e₂ : ℝ)
    (transport_cost₁ : τ₁) (transport_cost₂ : τ₂)
    (distance_km proposed_density : ℝ)
    (legal_far_limit : Option ℝ) (zone_color : Option String) :
    (calculate_optimal_density d0 g capital_k₁ land_cost_e₁ transport_cost₁
        distance_km proposed_density legal_far_limit zone_color).theoretical_density =
      (calculate_optimal_density d0 g capital_k₂ land_cost_e₂ transport_cost₂
        distance_km proposed_density legal_far_limit zone_color).theoretical_density ∧
    (calculate_optimal_density d0 g capital_k₁ land_cost_e₁ transport_cost₁
        distance_km proposed_density legal_far_limit zone_color).efficiency_index =
      (calculate_optimal_density d0 g capital_k₂ land_cost_e₂ transport_cost₂
        distance_km proposed_density legal_far_limit zone_color).efficiency_index ∧
    (calculate_optimal_density d0 g capital_k₁ land_cost_e₁ transport_cost₁
        distance_km proposed_density legal_far_limit zone_color).status =
      (calculate_optimal_density d0 g capital_k₂ land_cost_e₂ transport_cost₂
        distance_km proposed_density legal_far_limit zone_color).status ∧
    (calculate_optimal_density d0 g capital_k₁ land_cost_e₁ transport_cost₁
        distance_km proposed_density legal_far_limit zone_color).gap_analysis =
      (calculate_optimal_density d0 g capital_k₂ land_cost_e₂ transport_cost₂
        distance_km proposed_density legal_far_limit zone_color).gap_analysis ∧
    (calculate_optimal_density d0 g capital_k₁ land_cost_e₁ transport_cost₁
        distance_km proposed_density legal_far_limit zone_color).input_capital_k =
      capital_k₁ ∧
    (calculate_optimal_density d0 g capital_k₁ land_cost_e₁ transport_cost₁
        distance_km proposed_density legal_far_limit zone_color).input_land_cost =
      land_cost_e₁ :=
  ⟨rfl, rfl, rfl, rfl, rfl, rfl⟩

/-- C3 counterexample: at `investment = 1`, `cashflow = 1`,
`discountRate = 0` (inside the validated range `[0, 1]`) neither sentinel
condition holds — `cashflow = 1 > 0` and `ratio = 0 < 1` — yet the code
raises `ZeroDivisionError` from `-log(1)/log(1)` instead of returning the
claimed finite value, so the sentinel-or-finite dichotomy of the claim
fails. -/
theorem claim_C3_counterexample :
    calculate_breakeven_lease_term 1 1 0 = BreakevenResult.error ∧
    ¬((1:ℝ) ≤ 0 ∨ 1 ≤ (1:ℝ) * 0 / 1) := by
  constructor
  · unfold calculate_breakeven_lease_term
    rw [if_neg (by norm_num), if_neg (by norm_num), if_neg]
    intro h
    exact h.2.2 (by norm_num [Real.log_one])
  · push_neg
    norm_num

/-- C3 (amended): `calculate_breakeven_lease_term` returns its
distinguishable infinite sentinel exactly when `annualNetCashflow ≤ 0` or
`ratio ≥ 1`, and otherwise — provided `discountRate > 0`; at
`discountRate = 0` the unguarded division raises instead — returns the
finite value `-ln(1 - ratio) / ln(1 + discountRate)`; for
`investment = 500,000,000`, `cashflow = 40,000,000`, `rate = 0.05` the
result is finite and strictly between 15 and 25 years. -/
theorem claim_C3_breakeven (investment_cost annual_net_cashflow discount_rate : ℝ) :
    (calculate_breakeven_lease_term investment_cost annual_net_cashflow discount_rate =
        BreakevenResult.infinite ↔
      annual_net_cashflow ≤ 0 ∨ 1 ≤ investment_cost * discount_rate / annual_net_cashflow) ∧
    (0 < annual_net_cashflow →
      investment_cost * discount_rate / annual_net_cashflow < 1 →
      0 < discount_rate →
      calculate_breakeven_lease_term investment_cost annual_net_cashflow discount_rate =
        BreakevenResult.years
          (-Real.log (1 - investment_cost * discount_rate / annual_net_cashflow) /
            Real.log (1 + discount_rate))) ∧
    (∃ v, calculate_breakeven_lease_term 500000000 40000000 0.05 =
        BreakevenResult.years v ∧ 15 < v ∧ v < 25) := by
  refine ⟨?_, ?_, ?_⟩
  · unfold calculate_breakeven_lease_term
    by_cases h1 : annual_net_cashflow ≤ 0
    · rw [if_pos h1]
      simp [h1]
    · rw [if_neg h1]
      by_cases h2 : 1 ≤ investment_cost * discount_rate / annual_net_cashflow
      · rw [if_pos h2]
        simp [h1, h2]
      · rw [if_neg h2]
        split_ifs <;> simp [h1, h2]
  · intro hc hr hr0
    unfold calculate_breakeven_lease_term
    rw [if_neg (not_le.mpr hc), if_neg (not_le.mpr hr),
      if_pos ⟨by linarith, by linarith,
        ne_of_gt (Real.log_pos (by linarith))⟩]
  · have hratio : (500000000 : ℝ) * 0.05 / 40000000 = 5/8 := by norm_num
    have hc : (0:ℝ) < 40000000 := by norm_num
    have hsome : calculate_breakeven_lease_term 500000000 40000000 0.05 =
        BreakevenResult.years (-Real.log (1 - (5:ℝ)/8) / Real.log (1 + 0.05)) := by
      unfold calculate_breakeven_lease_term
      rw [if_neg (not_le.mpr hc)]
      rw [hratio]
      rw [if_neg (by norm_num),
        if_pos ⟨by norm_num, by norm_num,
          ne_of_gt (Real.log_pos (by norm_num))⟩]
    have h38 : (1:ℝ) - 5/8 = 3/8 := by norm_num
    have hlog : -Real.log ((3:ℝ)/8) = Real.log ((8:ℝ)/3) := by
      rw [show ((8:ℝ)/3) = ((3:ℝ)/8)⁻¹ by norm_num, Real.log_inv]
    have hL : (0:ℝ) < Real.log (1 + 0.05) := Real.log_pos (by norm_num)
    rw [h38, hlog] at hsome
    refine ⟨_, hsome, ?_, ?_⟩
    · rw [lt_div_iff₀ hL]
      have h15 : (15:ℝ) * Real.log (1 + 0.05) = Real.log ((1 + 0.05) ^ (15:ℕ)) := by
        rw [Real.log_pow]
        push_cast
        ring
      rw [h15]
      apply Real.log_lt_log (by positivity)
      norm_num
    · rw [div_lt_iff₀ hL]
      have h25 : (25:ℝ) * Real.log (1 + 0.05) = Real.log ((1 + 0.05) ^ (25:ℕ)) := by
        rw [Real.log_pow]
        push_cast
        ring
      rw [h25]
      apply Real.log_lt_log (by positivity)
      norm_num

/-- Witness for C3 at `investment = 1`, `cashflow = 2`, `rate = 1`
(ratio `1/2 < 1` and a positive rate, so the finite branch applies). -/
theorem claim_C3_breakeven_witness :
    calculate_breakeven_lease_term 1 2 1 =
      BreakevenResult.years (-Real.log (1 - (1:ℝ) * 1 / 2) / Real.log (1 + 1)) :=
  (claim_C3_breakeven 1 2 1).2.1 (by norm_num) (by norm_num) (by norm_num)

/-- C4 counterexample: the claim asserts that the break-even division by
`ln(1 + discountRate)` is guarded so its error branch is unreachable, but
at `discountRate = 0` (inside the validated range `[0, 1]`), with
`investment = 1` and `cashflow = 1`, both sentinel guards pass and the
code divides by `log(1 + 0) = 0` — Python raises `ZeroDivisionError`. -/
theorem claim_C4_counterexample : ¬ breakeven_division_guarded 1 1 0 := by
  intro h
  have h1 := h (by norm_num)
  have h2 := h1.2 (by norm_num)
  apply h2.2.2
  norm_num [Real.log_one]

/-- C4 (amended): for validated input, every internal division of the NPV,
ROA, efficiency-index and cost-benchmark computations has a nonzero
divisor (with the zero-investment and zero-theoretical-density cases
covered by explicit zero-returning branches), and the break-even divisions
are likewise guarded — but only for `discountRate > 0`, not at
`discountRate = 0`. -/
theorem claim_C4_division_safety :
    (∀ p : FinancialParams, p.Valid →
      npv_division_guarded p ∧ roa_division_guarded p) ∧
    (∀ proposed theoretical : ℝ, theoretical = 0 →
      efficiency_index_of proposed theoretical = 0) ∧
    (∀ p : FinancialParams, p.investment_cost = 0 →
      (calculate_return_on_asset p).roa_percent = 0) ∧
    (∀ building_type province : String,
      cost_division_guarded building_type province) ∧
    (∀ investment_cost annual_net_cashflow discount_rate : ℝ,
      0 < discount_rate →
      breakeven_division_guarded investment_cost annual_net_cashflow discount_rate) := by
  refine ⟨?_, ?_, ?_, ?_, ?_⟩
  · intro p hv
    obtain ⟨hup, hrent, hterm, hterm100, hr0, hr1, hinv, hlife, hesc, hint⟩ := hv
    have hpow : ∀ y : ℕ, (1 + p.discount_rate) ^ y ≠ 0 :=
      fun y => pow_ne_zero y (by linarith)
    refine ⟨⟨by omega, fun y _ => hpow y, fun _ => ?_, hpow _⟩,
      by omega, ?_, fun _ => ?_, fun h => ne_of_gt h⟩
    · exact Nat.cast_ne_zero.mpr (by omega)
    · exact Nat.cast_ne_zero.mpr (by omega)
    · exact Nat.cast_ne_zero.mpr (by omega)
  · intro proposed theoretical h
    unfold efficiency_index_of
    rw [if_pos h]
  · intro p h
    simp [calculate_return_on_asset, h]
  · intro bt prov base hbase
    unfold base_benchmarks at hbase
    unfold location_factor_of
    split_ifs at hbase with hb1 hb2 <;> injection hbase with hbase <;>
      subst hbase <;> split_ifs <;> norm_num
  · intro i c r hr hc
    refine ⟨ne_of_gt hc, fun hratio => ⟨by linarith, by linarith, ?_⟩⟩
    exact ne_of_gt (Real.log_pos (by linarith))

/-- Witness for C4 (amended) at `investment = 0`, `cashflow = 1`,
`rate = 1`. -/
theorem claim_C4_division_safety_witness : breakeven_division_guarded 0 1 1 :=
  claim_C4_division_safety.2.2.2.2 0 1 1 (by norm_num)

/-- C5: `calibrate_parameters` drops non-positive densities, returns the
`(0, 0)` sentinel on fewer than 2 valid samples or a zero regression
denominator, otherwise returns `(e^intercept, -slope)` of the OLS
regression of `ln(density)` on `distance`; and the §8 samples generated
from `D0 = 10`, `g = 0.1` at distances `{0, 5, 10}` calibrate back to
`D0 ∈ (9.9, 10.1)` and `g ∈ (0.09, 0.11)`. -/
theorem claim_C5_calibration (samples : List (ℝ × ℝ)) :
    (calibrate_parameters (samples.filter (fun s => decide (0 < s.2))) =
      calibrate_parameters samples) ∧
    ((valid_log_samples samples).length < 2 →
      calibrate_parameters samples = (0, 0)) ∧
    (¬ (valid_log_samples samples).length < 2 →
      ols_denominator (valid_log_samples samples) = 0 →
      calibrate_parameters samples = (0, 0)) ∧
    (¬ (valid_log_samples samples).length < 2 →
      ols_denominator (valid_log_samples samples) ≠ 0 →
      calibrate_parameters samples =
        (Real.exp (ols_intercept (valid_log_samples samples)),
          -(ols_slope (valid_log_samples samples)))) ∧
    (9.9 < (calibrate_parameters c5_samples).1 ∧
      (calibrate_parameters c5_samples).1 < 10.1 ∧
      0.09 < (calibrate_parameters c5_samples).2 ∧
      (calibrate_parameters c5_samples).2 < 0.11) := by
  refine ⟨calibrate_filter_invariant samples, calibrate_insufficient samples,
    calibrate_den_zero samples, calibrate_formula samples, ?_⟩
  rw [c5_roundtrip]
  norm_num

/-- Witness for C5 at the single-sample list `[(1, -1)]`: its only density
is non-positive, so no valid samples remain and the sentinel is
returned. -/
theorem claim_C5_calibration_witness :
    calibrate_parameters [((1:ℝ), (-1:ℝ))] = (0, 0) := by
  apply (claim_C5_calibration [((1:ℝ), (-1:ℝ))]).2.1
  have h : (fun s : ℝ × ℝ => decide (0 < s.2)) ((1:ℝ), (-1:ℝ)) = false := by
    simp only [decide_eq_false_iff_not]
    norm_num
  unfold valid_log_samples
  rw [List.filter_cons_of_neg (by simp [h]), List.filter_nil]
  simp

/-- C8: `validate_construction_cost` looks up the base benchmark
case-insensitively (low-rise 15,000; high-rise 30,000), returns a
distinguished "Unknown Type" result with deviation 0 for unrecognised
types, uses location factor 1.0 for unknown provinces, computes
`adjustedStandard = base × locationFactor` and
`deviation = (proposed − adjustedStandard)/adjustedStandard`, and reports
"Cost Anomaly Detected" exactly when `|deviation| > 0.20`; high-rise at
factor 1.15 with proposed 35,000 passes and high-rise at factor 0.95 with
proposed 40,000 is an anomaly. -/
theorem claim_C8_cost_validation :
    (∀ (cost : ℚ) (bt prov : String),
      to_lower_chars bt = "high-rise".toList →
      validate_construction_cost cost bt prov =
        { status := if 0.20 < |(cost - 30000 * location_factor_of (to_lower_chars prov)) /
              (30000 * location_factor_of (to_lower_chars prov))| then
            "Cost Anomaly Detected" else "Pass"
          deviation_percent := (cost - 30000 * location_factor_of (to_lower_chars prov)) /
            (30000 * location_factor_of (to_lower_chars prov)) * 100
          detail := some { base_standard_cost := 30000
                           location_factor := location_factor_of (to_lower_chars prov)
                           adjusted_standard_cost :=
                             30000 * location_factor_of (to_lower_chars prov)
                           province_context := prov } }) ∧
    (∀ (cost : ℚ) (bt prov : String),
      to_lower_chars bt = "low-rise".toList →
      validate_construction_cost cost bt prov =
        { status := if 0.20 < |(cost - 15000 * location_factor_of (to_lower_chars prov)) /
              (15000 * location_factor_of (to_lower_chars prov))| then
            "Cost Anomaly Detected" else "Pass"
          deviation_percent := (cost - 15000 * location_factor_of (to_lower_chars prov)) /
            (15000 * location_factor_of (to_lower_chars prov)) * 100
          detail := some { base_standard_cost := 15000
                           location_factor := location_factor_of (to_lower_chars prov)
                           adjusted_standard_cost :=
                             15000 * location_factor_of (to_lower_chars prov)
                           province_context := prov } }) ∧
    (∀ (cost : ℚ) (bt prov : String),
      to_lower_chars bt ≠ "low-rise".toList →
      to_lower_chars bt ≠ "high-rise".toList →
      validate_construction_cost cost bt prov =
        { status := "Unknown Type", deviation_percent := 0, detail := none }) ∧
    (∀ key : List Char,
      key ≠ "bangkok".toList → key ≠ "phuket".toList → key ≠ "chiang mai".toList →
      key ≠ "chonburi".toList → key ≠ "udon thani".toList →
      location_factor_of key = 1) ∧
    (validate_construction_cost 35000 "high-rise" "Phuket").status = "Pass" ∧
    (validate_construction_cost 40000 "high-rise" "Udon Thani").status =
      "Cost Anomaly Detected" := by
  have hhigh : ∀ (cost : ℚ) (bt prov : String),
      to_lower_chars bt = "high-rise".toList →
      validate_construction_cost cost bt prov =
        { status := if 0.20 < |(cost - 30000 * location_factor_of (to_lower_chars prov)) /
              (30000 * location_factor_of (to_lower_chars prov))| then
            "Cost Anomaly Detected" else "Pass"
          deviation_percent := (cost - 30000 * location_factor_of (to_lower_chars prov)) /
            (30000 * location_factor_of (to_lower_chars prov)) * 100
          detail := some { base_standard_cost := 30000
                           location_factor := location_factor_of (to_lower_chars prov)
                           adjusted_standard_cost :=
                             30000 * location_factor_of (to_lower_chars prov)
                           province_context := prov } } := by
    intro cost bt prov h
    unfold validate_construction_cost base_benchmarks
    rw [h]
    rw [if_neg (by decide), if_pos rfl]
  refine ⟨hhigh, ?_, ?_, ?_, ?_, ?_⟩
  · intro cost bt prov h
    unfold validate_construction_cost base_benchmarks
    rw [h, if_pos rfl]
  · intro cost bt prov h1 h2
    unfold validate_construction_cost base_benchmarks
    rw [if_neg h1, if_neg h2]
  · intro key h1 h2 h3 h4 h5
    unfold location_factor_of
    rw [if_neg h1, if_neg h2, if_neg h3, if_neg h4, if_neg h5]
    norm_num
  · rw [hhigh 35000 "high-rise" "Phuket" (by decide)]
    have hp : location_factor_of (to_lower_chars "Phuket") = 1.15 := by
      have h : to_lower_chars "Phuket" = "phuket".toList := by decide
      rw [h]
      unfold location_factor_of
      rw [if_neg (by decide), if_pos rfl]
    rw [hp]
    have habs : |((35000:ℚ) - 30000 * 1.15) / (30000 * 1.15)| = 500 / 34500 := by
      rw [show ((35000:ℚ) - 30000 * 1.15) / (30000 * 1.15) = 500 / 34500 by norm_num]
      rw [abs_of_nonneg (by norm_num)]
    rw [habs, if_neg (by norm_num)]
  · rw [hhigh 40000 "high-rise" "Udon Thani" (by decide)]
    have hp : location_factor_of (to_lower_chars "Udon Thani") = 0.95 := by
      have h : to_lower_chars "Udon Thani" = "udon thani".toList := by decide
      rw [h]
      unfold location_factor_of
      rw [if_neg (by decide), if_neg (by decide), if_neg (by decide),
        if_neg (by decide), if_pos rfl]
    rw [hp]
    have habs : |((40000:ℚ) - 30000 * 0.95) / (30000 * 0.95)| = 11500 / 28500 := by
      rw [show ((40000:ℚ) - 30000 * 0.95) / (30000 * 0.95) = 11500 / 28500 by norm_num]
      rw [abs_of_nonneg (by norm_num)]
    rw [habs, if_pos (by norm_num)]

/-- Witness for C8 at the unrecognised building type `"condo"`. -/
theorem claim_C8_cost_validation_witness :
    validate_construction_cost 20000 "condo" "Bangkok" =
      { status := "Unknown Type", deviation_percent := 0, detail := none } :=
  claim_C8_cost_validation.2.2.1 20000 "condo" "Bangkok" (by decide) (by decide)
